import Mathlib

/-!
Verification of the LLM request/response translation layer of the `paip`
command-line tool (Rust sources: `src/llm.rs`, `src/config.rs`, `src/main.rs`,
`src/cli.rs`).

The Rust code is shallowly embedded: each `struct` becomes a Lean structure,
each pure function a Lean function, serde serialization/deserialization of the
wire structs is spelled out field by field following the derive semantics and
the `skip_serializing_if`/`rename` attributes, and the HTTP transport is
abstracted to the pair (status code, raw body) it returns. JSON string parsing
(`serde_json::from_str`, up to producing a JSON value) is kept as an explicit
function parameter; the schema-directed part of deserialization is modelled
concretely.

Rust `f32` values only flow through the code unchanged (no arithmetic), so they
are modelled as rationals; `u32`/`u16` values as naturals with range checks
where the code performs them.
-/

namespace Paip

/-- JSON values, modelling `serde_json::Value` as far as this program uses it.
Numbers are split into integral and floating values; objects are association
lists in serialization order. -/
inductive Json : Type where
  | str (s : String)
  | intNum (n : Int)
  | floatNum (q : Rat)
  | boolVal (b : Bool)
  | null
  | arr (elems : List Json)
  | obj (fields : List (String × Json))

/-- Field lookup in a JSON object (first occurrence), `none` on non-objects. -/
def Json.getField (j : Json) (name : String) : Option Json :=
  match j with
  | .obj fields => fields.lookup name
  | _ => none

/-! ## Configuration model (`src/config.rs`) -/

/-- `GeminiConfig` from `src/config.rs`: the provider-specific sub-block.
`key` and `model` are required; all other fields are `#[serde(default)]`
options. -/
structure GeminiConfig : Type where
  key : String
  model : String
  temperature : Option Rat
  top_p : Option Rat
  top_k : Option Nat
  max_output_tokens : Option Nat
  thinking_budget : Option Nat
  thinking_level : Option String
deriving DecidableEq

/-- `Config` from `src/config.rs`. The `prompt` `HashMap` is modelled as an
association list. -/
structure Config : Type where
  version : Nat
  provider : String
  timeout : Nat
  gemini : Option GeminiConfig
  prompt : List (String × String)
deriving DecidableEq

/-! ## Wire request structs (`src/llm.rs`, lines 73-134) -/

/-- `Part` from `src/llm.rs`. -/
structure Part : Type where
  text : String
deriving DecidableEq

/-- `Content` from `src/llm.rs`. -/
structure Content : Type where
  parts : List Part
deriving DecidableEq

/-- `ApiThinkingConfig` from `src/llm.rs`: both fields optional, serialized
with camelCase renames and omitted when `None`. -/
structure ApiThinkingConfig : Type where
  thinking_budget : Option Nat
  thinking_level : Option String
deriving DecidableEq

/-- `ApiGenerationConfig` from `src/llm.rs`: every field optional and omitted
from the serialized form when `None`. -/
structure ApiGenerationConfig : Type where
  temperature : Option Rat
  top_p : Option Rat
  top_k : Option Nat
  max_output_tokens : Option Nat
  thinking_config : Option ApiThinkingConfig
deriving DecidableEq

/-- `impl From<&GeminiConfig> for ApiGenerationConfig` (`src/llm.rs` lines
105-127): a named thinking level takes precedence; the numeric budget is used
only when no level is set. -/
def ApiGenerationConfig.fromGemini (gc : GeminiConfig) : ApiGenerationConfig :=
  let thinking_config :=
    match gc.thinking_level with
    | some level => some { thinking_budget := none, thinking_level := some level : ApiThinkingConfig }
    | none =>
      gc.thinking_budget.map fun tb =>
        { thinking_budget := some tb, thinking_level := none : ApiThinkingConfig }
  { temperature := gc.temperature
    top_p := gc.top_p
    top_k := gc.top_k
    max_output_tokens := gc.max_output_tokens
    thinking_config := thinking_config }

/-- `RequestBody` from `src/llm.rs`: the outgoing envelope; `generationConfig`
is skipped when `None`. -/
structure RequestBody : Type where
  contents : List Content
  generation_config : Option ApiGenerationConfig
deriving DecidableEq

/-! ## Serialization (serde `Serialize` derive semantics)

Each field is emitted in declaration order under its `rename`d name; a field
with `#[serde(skip_serializing_if = "Option::is_none")]` contributes nothing
when it is `None`. -/

/-- One optional serde field: present under `name` when set, absent when not. -/
def optField {α : Type} (name : String) (v : Option α) (enc : α → Json) :
    List (String × Json) :=
  match v with
  | none => []
  | some x => [(name, enc x)]

/-- Serialization of `Part`. -/
def Part.toJson (p : Part) : Json :=
  .obj [("text", .str p.text)]

/-- Serialization of `Content`. -/
def Content.toJson (c : Content) : Json :=
  .obj [("parts", .arr (c.parts.map Part.toJson))]

/-- Serialization of `ApiThinkingConfig` (renames `thinkingBudget`,
`thinkingLevel`; `None` fields skipped). -/
def ApiThinkingConfig.toJson (tc : ApiThinkingConfig) : Json :=
  .obj (optField "thinkingBudget" tc.thinking_budget (fun n => .intNum n)
    ++ optField "thinkingLevel" tc.thinking_level .str)

/-- Serialization of `ApiGenerationConfig` (camelCase renames; `None` fields
skipped). -/
def ApiGenerationConfig.toJson (gcfg : ApiGenerationConfig) : Json :=
  .obj (optField "temperature" gcfg.temperature (fun q => .floatNum q)
    ++ optField "topP" gcfg.top_p (fun q => .floatNum q)
    ++ optField "topK" gcfg.top_k (fun n => .intNum n)
    ++ optField "maxOutputTokens" gcfg.max_output_tokens (fun n => .intNum n)
    ++ optField "thinkingConfig" gcfg.thinking_config ApiThinkingConfig.toJson)

/-- Serialization of `RequestBody` (`generationConfig` skipped when `None`). -/
def RequestBody.toJson (rb : RequestBody) : Json :=
  .obj ([("contents", .arr (rb.contents.map Content.toJson))]
    ++ optField "generationConfig" rb.generation_config ApiGenerationConfig.toJson)

/-- The request built in `send_gemini_request` (`src/llm.rs` lines 167-176)
when the gemini sub-config is `gc`: one user content block holding exactly one
text part, plus `Some(ApiGenerationConfig::from(gc))` (the source maps
`From::from` over `config.gemini`, which is present on this path). -/
def buildRequestBody (gc : GeminiConfig) (prompt : String) : RequestBody :=
  { contents := [{ parts := [{ text := prompt }] }]
    generation_config := some (ApiGenerationConfig.fromGemini gc) }

/-! ## Wire response structs (`src/llm.rs`, lines 136-151) -/

/-- `ApiError` from `src/llm.rs`: the structured provider error. `code` is a
Rust `u16`, modelled as a natural (the deserializer enforces the range). -/
structure ApiError : Type where
  code : Nat
  message : String
deriving DecidableEq

/-- `Candidate` from `src/llm.rs`: one proposed answer, content optional. -/
structure Candidate : Type where
  content : Option Content
deriving DecidableEq

/-- `ResponseBody` from `src/llm.rs`: candidates and error are independently
optional. -/
structure ResponseBody : Type where
  candidates : Option (List Candidate)
  error : Option ApiError
deriving DecidableEq

/-! ## Deserialization (serde `Deserialize` derive semantics)

A struct deserializes from a JSON object; a required field must be present
with a value of the right shape; an `Option` field is `None` when missing or
`null` and otherwise must deserialize at the inner type; unknown fields are
ignored. Shape mismatch anywhere is a failure (`none`). -/

/-- An optional serde field of an object: missing or `null` is `none`;
a present non-null value must deserialize, else the whole read fails. -/
def decodeOptField {α : Type} (fields : List (String × Json)) (name : String)
    (dec : Json → Option α) : Option (Option α) :=
  match fields.lookup name with
  | none => some none
  | some .null => some none
  | some j => (dec j).map some

/-- Deserialization of `Part`: requires a string `text` field. -/
def decodePart (j : Json) : Option Part :=
  match j with
  | .obj fields =>
    match fields.lookup "text" with
    | some (.str s) => some { text := s }
    | _ => none
  | _ => none

/-- Deserialization of `Content`: requires a `parts` array whose elements all
deserialize as `Part`. -/
def decodeContent (j : Json) : Option Content :=
  match j with
  | .obj fields =>
    match fields.lookup "parts" with
    | some (.arr elems) => (elems.mapM decodePart).map fun ps => { parts := ps }
    | _ => none
  | _ => none

/-- Deserialization of `Candidate`: `content` optional. -/
def decodeCandidate (j : Json) : Option Candidate :=
  match j with
  | .obj fields =>
    (decodeOptField fields "content" decodeContent).map fun c => { content := c }
  | _ => none

/-- Deserialization of `ApiError`: `code` must be an integral number in `u16`
range, `message` a string. -/
def decodeApiError (j : Json) : Option ApiError :=
  match j with
  | .obj fields =>
    match fields.lookup "code", fields.lookup "message" with
    | some (.intNum n), some (.str msg) =>
      if 0 ≤ n ∧ n < 65536 then some { code := n.toNat, message := msg } else none
    | _, _ => none
  | _ => none

/-- Deserialization of `ResponseBody`: both fields optional. -/
def decodeResponseBody (j : Json) : Option ResponseBody :=
  match j with
  | .obj fields =>
    match decodeOptField fields "candidates"
        (fun cj => match cj with
          | .arr elems => elems.mapM decodeCandidate
          | _ => none),
      decodeOptField fields "error" decodeApiError with
    | some cs, some err => some { candidates := cs, error := err }
    | _, _ => none
  | _ => none

/-! ## Response interpretation (`src/llm.rs`, lines 185-226) -/

/-- The failures one `send` call can produce past construction, mirroring the
`anyhow!` sites in `send_gemini_request`. -/
inductive RequestError : Type where
  | geminiConfigMissing
  | deserializationError (rawBody : String)
  | apiError (code : Nat) (message : String)
  | unexpectedStatus (status : Nat) (body : ResponseBody)
  | emptyResponse (body : ResponseBody)
deriving DecidableEq

/-- `reqwest::StatusCode::is_success`: the 2xx range. -/
def isSuccess (status : Nat) : Bool :=
  decide (200 ≤ status ∧ status < 300)

/-- Lines 198-226 of `src/llm.rs`, on an already-deserialized body: non-success
status reports the structured error if present and otherwise the status with
the whole body; success extracts the first part of the first candidate and
otherwise reports the empty response with the whole body. -/
def interpretParsed (status : Nat) (body : ResponseBody) : Except RequestError String :=
  if isSuccess status then
    match body.candidates with
    | some (c :: _) =>
      match c.content with
      | some content =>
        match content.parts with
        | p :: _ => .ok p.text
        | [] => .error (.emptyResponse body)
      | none => .error (.emptyResponse body)
    | some [] => .error (.emptyResponse body)
    | none => .error (.emptyResponse body)
  else
    match body.error with
    | some apiErr => .error (.apiError apiErr.code apiErr.message)
    | none => .error (.unexpectedStatus status body)

/-- Lines 190-226 of `src/llm.rs`: deserialize the raw body first (failure is
terminal and keeps the raw text), then classify by status. `parse` stands for
`serde_json` string-to-value parsing; its composition with the schema decoding
models `serde_json::from_str::<ResponseBody>`. -/
def interpretRaw (parse : String → Option Json) (status : Nat) (rawBody : String) :
    Except RequestError String :=
  match (parse rawBody).bind decodeResponseBody with
  | none => .error (.deserializationError rawBody)
  | some body => interpretParsed status body

/-! ## Client facade (`src/llm.rs`, lines 8-70 and 153-185) -/

/-- `LlmProvider` from `src/llm.rs`: a single closed variant. -/
inductive LlmProvider : Type where
  | gemini
deriving DecidableEq

/-- `LlmProvider::as_str`. -/
def LlmProvider.as_str (p : LlmProvider) : String :=
  match p with
  | .gemini => "gemini"

/-- The construction-time failures of `LlmClient::new`, one per `anyhow!`
site. -/
inductive ConfigError : Type where
  | unsupportedProvider (provider : String)
  | geminiConfigNotFound
  | apiKeyNotConfigured (provider : String)
deriving DecidableEq

/-- A single-quote character, kept out of string literals. -/
def squote : String := String.singleton (Char.ofNat 39)

/-- The exact message text of each construction failure. -/
def ConfigError.message (e : ConfigError) : String :=
  match e with
  | .unsupportedProvider p => "Unsupported LLM provider: " ++ p
  | .geminiConfigNotFound =>
    "Gemini configuration not found for provider " ++ squote ++ "gemini" ++ squote
  | .apiKeyNotConfigured p => "API key is not configured for provider: " ++ p

/-- `std::time::Duration::from_millis`, as a count of nanoseconds. -/
def durationFromMillis (ms : Nat) : Nat := ms * 1000000

/-- The built `reqwest` client, reduced to the one property configured on it:
its request timeout (`Client::builder().timeout(..)` in `LlmClient::new`). -/
structure HttpTransport : Type where
  timeoutNanos : Nat
deriving DecidableEq

/-- `LlmClient` from `src/llm.rs`. -/
structure LlmClient : Type where
  provider : LlmProvider
  api_key : String
  client : HttpTransport
  config : Config
  verbose : Bool
deriving DecidableEq

/-- `LlmClient::new` (`src/llm.rs` lines 31-64): resolve the provider variant,
require the gemini sub-block, reject empty or placeholder keys, then build the
transport with `Duration::from_millis(config.timeout)`. -/
def LlmClient.new (config : Config) (verbose : Bool) : Except ConfigError LlmClient :=
  if config.provider = "gemini" then
    match config.gemini with
    | none => .error .geminiConfigNotFound
    | some gc =>
      if gc.key = "" ∨ gc.key = "YOUR_GEMINI_API_KEY" then
        .error (.apiKeyNotConfigured (LlmProvider.as_str .gemini))
      else
        .ok { provider := .gemini
              api_key := gc.key
              client := { timeoutNanos := durationFromMillis config.timeout }
              config := config
              verbose := verbose }
  else
    .error (.unsupportedProvider config.provider)

/-- `send_gemini_request` (`src/llm.rs` lines 154-226) with the network call
abstracted away: the transport's reply is the pair `(status, rawBody)`, and
`parse` stands for `serde_json` text parsing. The gemini sub-block check is
line 155-159; building and sending the request body (modelled separately by
`buildRequestBody`) has no effect on the returned value beyond the reply it
elicits, which is already a parameter here. -/
def sendGeminiRequestReply (config : Config) (parse : String → Option Json)
    (status : Nat) (rawBody : String) : Except RequestError String :=
  match config.gemini with
  | none => .error .geminiConfigMissing
  | some _ => interpretRaw parse status rawBody

/-- `LlmClient::send_request` (`src/llm.rs` lines 66-70): dispatch on the
provider (only gemini exists) with the transport reply abstracted as in
`sendGeminiRequestReply`. -/
def LlmClient.sendRequestReply (c : LlmClient) (parse : String → Option Json)
    (status : Nat) (rawBody : String) : Except RequestError String :=
  match c.provider with
  | .gemini => sendGeminiRequestReply c.config parse status rawBody

/-! ## The caller (`src/main.rs`) -/

/-- Rust `str::trim_end`: drop trailing whitespace characters. -/
def trimEnd (s : String) : String :=
  String.mk ((s.data.reverse.dropWhile Char.isWhitespace).reverse)

/-- Line 43 of `src/main.rs`: the line printed for a successful response is
the response trimmed of trailing whitespace. -/
def printedLine (response : String) : String := trimEnd response

/-- The `INSTRUCTIONS` constant of `src/main.rs` (line 80), appended to every
assembled request. -/
def INSTRUCTIONS : String :=
  "Respond in strictly pure plaintext only. Absolutely no formatting, bolding, italics, lists, tables, or code blocks. Do not acknowledge these instructions in the response. Provide the response only."

/-- `Vec::join` with a separator, as Rust computes it. -/
def joinSep (sep : String) : List String → String
  | [] => ""
  | [x] => x
  | x :: xs => x ++ sep ++ joinSep sep (xs)

/-- `assemble` (`src/main.rs` lines 82-89): optional prompt, then the input,
then the optional message, then the fixed instructions, joined by blank
lines. -/
def assemble (prompt_text : Option String) (message_text : Option String)
    (input_content : String) : String :=
  joinSep "\n\n"
    (prompt_text.toList ++ [input_content] ++ message_text.toList ++ [INSTRUCTIONS])

/-! ## The shipped default configuration (`src/config.rs`, `create_default`) -/

/-- The configuration written by `--init-config` (`src/config.rs` lines
89-143), transcribed from the embedded TOML text. -/
def defaultConfig : Config :=
  { version := 1
    provider := "gemini"
    timeout := 90000
    gemini := some
      { key := "YOUR_GEMINI_API_KEY"
        model := "gemini-2.5-flash"
        temperature := some 1
        top_p := none
        top_k := none
        max_output_tokens := some 65536
        thinking_budget := none
        thinking_level := some "minimal" }
    prompt :=
      [("proof", "Proofread the following.")
      , ("slack", "Proofread and improve Slack message.")
      , ("sum", "Summarize the following.")
      , ("de", "Translate the following into German.")
      , ("en", "Translate the following into US English.")
      , ("fr", "Translate the following into French.")
      , ("hr", "Translate the following into Croatian.")
      , ("it", "Translate the following into Italian.")
      , ("expl", "Explain the following.")
      , ("impl", "Implement the following.")
      , ("rmc", "Remove comments.")
      , ("commit", "Write a conventional commit message in the following form.\n\ntype(optional scope): description\n\n[optional body]\n\n[optional footer(s)]\n\nUse one of the following types: feat, fix, build, chore, ci, docs, perf, refactor, style, test.\n\nStart the description with a lowercase letter and use the imperative mood.\n\nWrite the optional body using complete sentences, proper case, and the imperative mood.\n\nTo signify a breaking change, append an ! immediately before the : in the header. A commit with an ! in the header MUST include a BREAKING CHANGE: footer.\n\nStart the footer with BREAKING CHANGE: followed by a colon and a space. After the prefix, explain the breaking change, what it affects, and what migration steps are necessary.\n")
      , ("review", "Please review the following.\n\nSuggest improvements and explain your reasoning for each suggestion.\n")] }

/-- Whether `pat` occurs as a contiguous run of `s`. -/
def containsSub (pat : List Char) : List Char → Bool
  | [] => pat.isEmpty
  | c :: rest => pat.isPrefixOf (c :: rest) || containsSub pat rest

/-- Substring occurrence on strings, over their character lists. -/
def substrOccurs (pat s : String) : Bool :=
  containsSub pat.data s.data

/-! ## Concrete fixtures used to instantiate the theorems -/

/-- A gemini sub-config with every optional generation knob unset. -/
def gcAllUnset : GeminiConfig :=
  { key := "k", model := "m", temperature := none, top_p := none, top_k := none,
    max_output_tokens := none, thinking_budget := none, thinking_level := none }

/-- Both thinking fields set. -/
def gcBothThinking : GeminiConfig :=
  { gcAllUnset with thinking_budget := some 100, thinking_level := some "high" }

/-- Only the thinking budget set. -/
def gcBudgetOnly : GeminiConfig :=
  { gcAllUnset with thinking_budget := some 100 }

/-- A minimal valid configuration. -/
def cfgGood : Config :=
  { version := 1, provider := "gemini", timeout := 1000,
    gemini := some gcAllUnset, prompt := [] }

/-- A configuration whose credential is the documented placeholder. -/
def cfgPlaceholder : Config :=
  { version := 1, provider := "gemini", timeout := 1000,
    gemini := some { gcAllUnset with key := "YOUR_GEMINI_API_KEY" }, prompt := [] }

/-- The client `LlmClient::new cfgGood false` constructs. -/
def clientGood : LlmClient :=
  { provider := .gemini, api_key := "k",
    client := { timeoutNanos := durationFromMillis 1000 },
    config := cfgGood, verbose := false }

/-- The wire body of scenario B: status 429 with a structured error. -/
def json429 : Json :=
  .obj [("error", .obj [("code", .intNum 429), ("message", .str "quota exceeded")])]

/-- Scenario B's body, deserialized. -/
def body429 : ResponseBody :=
  { candidates := none, error := some { code := 429, message := "quota exceeded" } }

/-- Scenario C's body: a successful status with an empty candidate list. -/
def bodyNoCandidates : ResponseBody :=
  { candidates := some [], error := none }

/-- A successful wire body whose first part text carries trailing
whitespace. -/
def jsonBonjour : Json :=
  .obj [("candidates", .arr [ .obj [("content",
    .obj [("parts", .arr [ .obj [("text", .str "Bonjour \n")] ])])] ])]

/-- `jsonBonjour`, deserialized. -/
def bodyBonjour : ResponseBody :=
  { candidates := some [{ content := some { parts := [{ text := "Bonjour \n" }] } }],
    error := none }

/-- A successful body with a second candidate and a second part, to exercise
the first-wins rule. -/
def bodyTwoCandidates : ResponseBody :=
  { candidates := some
      [ { content := some { parts := [{ text := "A" }, { text := "B" }] } }
      , { content := some { parts := [{ text := "C" }] } } ],
    error := none }

/-! ## Helper lemmas -/

/-- Looking up a different name in a single serde-emitted optional field finds
nothing. -/
theorem lookup_optField_none {α : Type} (n name : String) (v : Option α) (enc : α → Json)
    (h : (n == name) = false) : List.lookup n (optField name v enc) = none := by
  cases v <;> simp [optField, List.lookup, h]

/-- Lookup skips a prefix in which the key does not occur. -/
theorem lookup_append_left_none {α β : Type} [BEq α] (n : α) (l1 l2 : List (α × β))
    (h : List.lookup n l1 = none) : List.lookup n (l1 ++ l2) = List.lookup n l2 := by
  induction l1 with
  | nil => simp
  | cons kv tl ih =>
    obtain ⟨k, v⟩ := kv
    rw [List.cons_append, List.lookup] at *
    cases hek : n == k with
    | true => simp [hek] at h
    | false => simp only [hek] at h ⊢; exact ih h

/-! ## Claims -/

/-- C1, counterexample: with every optional generation field unset, the
request built by the Request Builder still serializes a `generationConfig`
member (with value the empty object), so the claim that the member is omitted
entirely is false at this input. -/
theorem c1_counterexample :
    Json.getField (RequestBody.toJson (buildRequestBody gcAllUnset "hi"))
        "generationConfig" = some (Json.obj [])
      ∧ Json.getField (RequestBody.toJson (buildRequestBody gcAllUnset "hi"))
        "generationConfig" ≠ none := by
  have h : Json.getField (RequestBody.toJson (buildRequestBody gcAllUnset "hi"))
      "generationConfig" = some (Json.obj []) := rfl
  exact ⟨h, by rw [h]; simp⟩

/-- C1, amended: for every GenerationParameters in which all optional fields
are unset, the built request contains the generation-parameters object
serialized as an empty JSON object (every inner field is omitted, but the
`generationConfig` member itself is present). -/
theorem c1_theorem (gc : GeminiConfig) (prompt : String)
    (h1 : gc.temperature = none) (h2 : gc.top_p = none) (h3 : gc.top_k = none)
    (h4 : gc.max_output_tokens = none) (h5 : gc.thinking_budget = none)
    (h6 : gc.thinking_level = none) :
    Json.getField (RequestBody.toJson (buildRequestBody gc prompt))
      "generationConfig" = some (Json.obj []) := by
  simp [buildRequestBody, RequestBody.toJson, ApiGenerationConfig.fromGemini,
    ApiGenerationConfig.toJson, optField, Json.getField, List.lookup,
    h1, h2, h3, h4, h5, h6]

/-- C1, witness for the amended theorem at a concrete all-unset
configuration. -/
theorem c1_witness :
    Json.getField (RequestBody.toJson (buildRequestBody gcAllUnset "hi"))
      "generationConfig" = some (Json.obj []) :=
  c1_theorem gcAllUnset "hi" rfl rfl rfl rfl rfl rfl

/-- C2: when both thinking fields are set the thinking-control object carries
only the level (its serialization has a single `thinkingLevel` member); when
only the budget is set it carries only the budget; when neither is set no
thinking-control object is produced and the serialized generation config has
no `thinkingConfig` member. -/
theorem c2_theorem (gc : GeminiConfig) :
    (∀ l b, gc.thinking_level = some l → gc.thinking_budget = some b →
      (ApiGenerationConfig.fromGemini gc).thinking_config
          = some { thinking_budget := none, thinking_level := some l }
        ∧ ApiThinkingConfig.toJson { thinking_budget := none, thinking_level := some l }
          = Json.obj [("thinkingLevel", .str l)])
    ∧ (∀ b, gc.thinking_level = none → gc.thinking_budget = some b →
      (ApiGenerationConfig.fromGemini gc).thinking_config
          = some { thinking_budget := some b, thinking_level := none }
        ∧ ApiThinkingConfig.toJson { thinking_budget := some b, thinking_level := none }
          = Json.obj [("thinkingBudget", .intNum b)])
    ∧ (gc.thinking_level = none → gc.thinking_budget = none →
      (ApiGenerationConfig.fromGemini gc).thinking_config = none
        ∧ Json.getField (ApiGenerationConfig.toJson (ApiGenerationConfig.fromGemini gc))
          "thinkingConfig" = none) := by
  refine ⟨?_, ?_, ?_⟩
  · intro l b hl hb
    constructor
    · simp [ApiGenerationConfig.fromGemini, hl]
    · simp [ApiThinkingConfig.toJson, optField]
  · intro b hl hb
    constructor
    · simp [ApiGenerationConfig.fromGemini, hl, hb]
    · simp [ApiThinkingConfig.toJson, optField]
  · intro hl hb
    have hnone : (ApiGenerationConfig.fromGemini gc).thinking_config = none := by
      simp [ApiGenerationConfig.fromGemini, hl, hb]
    refine ⟨hnone, ?_⟩
    simp only [ApiGenerationConfig.toJson, Json.getField, hnone, List.append_assoc]
    rw [lookup_append_left_none _ _ _ (lookup_optField_none _ _ _ _ (by decide)),
      lookup_append_left_none _ _ _ (lookup_optField_none _ _ _ _ (by decide)),
      lookup_append_left_none _ _ _ (lookup_optField_none _ _ _ _ (by decide)),
      lookup_append_left_none _ _ _ (lookup_optField_none _ _ _ _ (by decide))]
    simp [optField, List.lookup]

/-- C2, witness: the three cases at concrete configurations. -/
theorem c2_witness :
    ((ApiGenerationConfig.fromGemini gcBothThinking).thinking_config
        = some { thinking_budget := none, thinking_level := some "high" })
    ∧ ((ApiGenerationConfig.fromGemini gcBudgetOnly).thinking_config
        = some { thinking_budget := some 100, thinking_level := none })
    ∧ ((ApiGenerationConfig.fromGemini gcAllUnset).thinking_config = none) :=
  ⟨((c2_theorem gcBothThinking).1 "high" 100 rfl rfl).1,
   ((c2_theorem gcBudgetOnly).2.1 100 rfl rfl).1,
   ((c2_theorem gcAllUnset).2.2 rfl rfl).1⟩

/-- C3: on a success status, when the first candidate has a content block with
at least one part, interpretation returns exactly the first part's text of the
first candidate; the remaining candidates `rest` and remaining parts `ps` are
arbitrary and do not affect the result. -/
theorem c3_theorem (status : Nat) (body : ResponseBody) (c : Candidate)
    (rest : List Candidate) (content : Content) (p : Part) (ps : List Part)
    (hs : isSuccess status = true)
    (hc : body.candidates = some (c :: rest))
    (hct : c.content = some content)
    (hp : content.parts = p :: ps) :
    interpretParsed status body = .ok p.text := by
  simp [interpretParsed, hs, hc, hct, hp]

/-- C3, witness: a body with two candidates and two parts yields the first
part of the first candidate. -/
theorem c3_witness : interpretParsed 200 bodyTwoCandidates = .ok "A" :=
  c3_theorem 200 bodyTwoCandidates _ _ _ _ _ rfl rfl rfl rfl

/-- C4: on a non-success status, a present structured error yields an API
error carrying exactly its code and message, and an absent one yields the
unexpected-status failure carrying the status and the whole envelope. -/
theorem c4_theorem (status : Nat) (body : ResponseBody) (h : isSuccess status = false) :
    (∀ e, body.error = some e →
      interpretParsed status body = .error (.apiError e.code e.message))
    ∧ (body.error = none →
      interpretParsed status body = .error (.unexpectedStatus status body)) := by
  constructor
  · intro e he
    simp [interpretParsed, h, he]
  · intro he
    simp [interpretParsed, h, he]

/-- C4, witness: scenario B (status 429 with a structured quota error, whose
wire form deserializes as expected) and a status 404 without structured
error. -/
theorem c4_witness :
    decodeResponseBody json429 = some body429
    ∧ interpretParsed 429 body429 = .error (.apiError 429 "quota exceeded")
    ∧ interpretParsed 404 { candidates := none, error := none }
      = .error (.unexpectedStatus 404 { candidates := none, error := none }) :=
  ⟨rfl,
   (c4_theorem 429 body429 rfl).1 { code := 429, message := "quota exceeded" } rfl,
   (c4_theorem 404 { candidates := none, error := none } rfl).2 rfl⟩

/-- C5: on a success status, a missing or empty candidate list, a first
candidate without content, or a content block with an empty part list all
yield the empty-response failure carrying the whole envelope. -/
theorem c5_theorem (status : Nat) (body : ResponseBody) (hs : isSuccess status = true)
    (h : body.candidates = none ∨ body.candidates = some []
      ∨ (∃ c rest, body.candidates = some (c :: rest) ∧ c.content = none)
      ∨ (∃ c rest content, body.candidates = some (c :: rest)
          ∧ c.content = some content ∧ content.parts = [])) :
    interpretParsed status body = .error (.emptyResponse body) := by
  rcases h with h | h | ⟨c, rest, hc, hcc⟩ | ⟨c, rest, content, hc, hcc, hp⟩ <;>
    simp [interpretParsed, hs, *]

/-- C5, witness: scenario C, status 200 with an empty candidate list (and its
wire form deserializes as expected). -/
theorem c5_witness :
    interpretParsed 200 bodyNoCandidates = .error (.emptyResponse bodyNoCandidates)
    ∧ decodeResponseBody (.obj [("candidates", .arr [])]) = some bodyNoCandidates :=
  ⟨c5_theorem 200 bodyNoCandidates rfl (Or.inr (Or.inl rfl)), rfl⟩

/-- C6: when the raw body fails to parse as the response schema, interpretation
fails with the deserialization error carrying the original raw body, for every
status code — the parse step precedes the status check. -/
theorem c6_theorem (parse : String → Option Json) (status : Nat) (rawBody : String)
    (h : (parse rawBody).bind decodeResponseBody = none) :
    interpretRaw parse status rawBody = .error (.deserializationError rawBody) := by
  simp [interpretRaw, h]

/-- C6, witness: a schema-mismatched body under a non-success status still
yields the deserialization error, not an API or unexpected-status error. -/
theorem c6_witness :
    interpretRaw (fun _ => some (Json.str "oops")) 429 "not json"
      = .error (.deserializationError "not json") :=
  c6_theorem (fun _ => some (Json.str "oops")) 429 "not json" rfl

/-- C7: client construction succeeds exactly when the provider is the
recognized "gemini", its sub-block is present, and the key is neither empty
nor the placeholder; with the placeholder key the error message contains
"API key is not configured". -/
theorem c7_theorem (config : Config) (v : Bool) :
    ((∃ cl, LlmClient.new config v = .ok cl) ↔
      (config.provider = "gemini" ∧ ∃ gc, config.gemini = some gc
        ∧ gc.key ≠ "" ∧ gc.key ≠ "YOUR_GEMINI_API_KEY"))
    ∧ (∀ gc, config.provider = "gemini" → config.gemini = some gc →
        gc.key = "YOUR_GEMINI_API_KEY" →
        ∃ e, LlmClient.new config v = .error e
          ∧ substrOccurs "API key is not configured" (ConfigError.message e) = true) := by
  constructor
  · by_cases hp : config.provider = "gemini"
    · cases hg : config.gemini with
      | none => simp [LlmClient.new, hp, hg]
      | some gc =>
        by_cases hk : gc.key = "" ∨ gc.key = "YOUR_GEMINI_API_KEY"
        · rcases hk with hk | hk <;> simp [LlmClient.new, hp, hg, hk]
        · push_neg at hk
          simp [LlmClient.new, hp, hg, hk.1, hk.2, not_or]
    · simp [LlmClient.new, hp]
  · intro gc hp hg hk
    refine ⟨.apiKeyNotConfigured "gemini", ?_, by decide⟩
    simp [LlmClient.new, hp, hg, hk, LlmProvider.as_str]

/-- C7, witness: a valid configuration constructs, the placeholder one fails
with the documented message fragment. -/
theorem c7_witness :
    (∃ cl, LlmClient.new cfgGood false = .ok cl)
    ∧ (∃ e, LlmClient.new cfgPlaceholder false = .error e
        ∧ substrOccurs "API key is not configured" (ConfigError.message e) = true) :=
  ⟨(c7_theorem cfgGood false).1.mpr ⟨rfl, gcAllUnset, rfl, by decide, by decide⟩,
   (c7_theorem cfgPlaceholder false).2 { gcAllUnset with key := "YOUR_GEMINI_API_KEY" }
     rfl rfl rfl⟩

/-- C8, counterexample: a successful send whose first part text carries
trailing whitespace is returned verbatim across the facade's send boundary,
not trimmed — the value returned differs from the trailing-trimmed text the
claim prescribes. -/
theorem c8_counterexample :
    LlmClient.sendRequestReply clientGood (fun _ => some jsonBonjour) 200 "raw"
      = .ok "Bonjour \n"
    ∧ trimEnd "Bonjour \n" = "Bonjour"
    ∧ ("Bonjour \n" : String) ≠ "Bonjour" :=
  ⟨rfl, rfl, by decide⟩

/-- C8, amended: the facade's send returns the first extracted answer's text
verbatim; the trailing-whitespace-only trimming is applied by the caller
(`main`) to the returned text when printing, so the printed line equals the
returned text trimmed of trailing whitespace only. -/
theorem c8_theorem (cl : LlmClient) (parse : String → Option Json) (status : Nat)
    (rawBody : String) (gc : GeminiConfig) (body : ResponseBody) (c : Candidate)
    (rest : List Candidate) (content : Content) (p : Part) (ps : List Part)
    (hgem : cl.config.gemini = some gc)
    (hparse : (parse rawBody).bind decodeResponseBody = some body)
    (hs : isSuccess status = true)
    (hc : body.candidates = some (c :: rest))
    (hct : c.content = some content)
    (hp : content.parts = p :: ps) :
    cl.sendRequestReply parse status rawBody = .ok p.text
    ∧ printedLine p.text = trimEnd p.text := by
  refine ⟨?_, rfl⟩
  cases hprov : cl.provider with
  | gemini =>
    simp [LlmClient.sendRequestReply, sendGeminiRequestReply, hprov, hgem,
      interpretRaw, hparse, interpretParsed, hs, hc, hct, hp]

/-- C8, witness for the amended theorem at the concrete trailing-whitespace
response. -/
theorem c8_theorem_witness :
    clientGood.sendRequestReply (fun _ => some jsonBonjour) 200 "raw" = .ok "Bonjour \n"
    ∧ printedLine "Bonjour \n" = trimEnd "Bonjour \n" :=
  c8_theorem clientGood (fun _ => some jsonBonjour) 200 "raw" gcAllUnset bodyBonjour
    _ _ _ _ _ rfl rfl rfl rfl rfl rfl

/-- C9: the scenario-E payload, and in general assembly joins the optional
prompt, the input, the optional message and the fixed instruction constant in
that order with blank-line separators, the instructions appended to every
request. -/
theorem c9_theorem :
    assemble (some "Summarize:") none "text."
      = "Summarize:" ++ "\n\n" ++ "text." ++ "\n\n" ++ INSTRUCTIONS
    ∧ (∀ i, assemble none none i = i ++ "\n\n" ++ INSTRUCTIONS)
    ∧ (∀ p i, assemble (some p) none i = p ++ "\n\n" ++ i ++ "\n\n" ++ INSTRUCTIONS)
    ∧ (∀ m i, assemble none (some m) i = i ++ "\n\n" ++ m ++ "\n\n" ++ INSTRUCTIONS)
    ∧ (∀ p m i, assemble (some p) (some m) i
        = p ++ "\n\n" ++ i ++ "\n\n" ++ m ++ "\n\n" ++ INSTRUCTIONS) := by
  refine ⟨rfl, ?_, ?_, ?_, ?_⟩ <;> intros <;>
    simp [assemble, joinSep, String.append_assoc]

/-- C10: every constructed client's transport timeout is
`Duration::from_millis` of the configured timeout, and the shipped default
configuration sets 90000 milliseconds, i.e. 90 seconds. -/
theorem c10_theorem :
    (∀ config v cl, LlmClient.new config v = .ok cl →
      cl.client.timeoutNanos = durationFromMillis config.timeout)
    ∧ defaultConfig.timeout = 90000
    ∧ durationFromMillis defaultConfig.timeout = 90 * 1000000000 := by
  refine ⟨?_, rfl, rfl⟩
  intro config v cl h
  unfold LlmClient.new at h
  by_cases hp : config.provider = "gemini"
  · rw [if_pos hp] at h
    cases hg : config.gemini with
    | none => rw [hg] at h; exact absurd h (by simp)
    | some gc =>
      rw [hg] at h
      dsimp only at h
      by_cases hk : gc.key = "" ∨ gc.key = "YOUR_GEMINI_API_KEY"
      · rw [if_pos hk] at h; exact absurd h (by simp)
      · rw [if_neg hk] at h
        injection h with h2
        subst h2
        rfl
  · rw [if_neg hp] at h; exact absurd h (by simp)

/-- C10, witness: the concrete valid configuration constructs a client whose
transport timeout is its configured milliseconds. -/
theorem c10_witness :
    clientGood.client.timeoutNanos = durationFromMillis cfgGood.timeout :=
  c10_theorem.1 cfgGood false clientGood rfl

end Paip
